import Mathlib

/-!
# Verification of the news-digest generator

Shallow embedding of `src/server/src/services/newsAgent.ts` and the two
news-digest HTTP handlers of `src/server/src/index.ts`.

The TypeScript module keeps two module-level mutable variables
(`cachedDigest`, `isGenerating`); here they form an explicit `AgentState`
that every operation threads.  The outside world (the configuration file,
the Google Custom Search HTTP call, the Gemini model call, the clock and a
possible unexpected exception inside the orchestration `try` block) is an
explicit environment `RunEnv`; each topic draws its search and model
outcome from a per-index oracle.
-/

-- --- Types (newsAgent.ts lines 5-26) ---

structure ArticleResult where
  title : String
  link : String
  snippet : String
  source : String
  date : Option String
  deriving DecidableEq, Repr

structure TopicDigest where
  topic : String
  summary : String
  articles : List ArticleResult
  articleCount : Nat
  deriving DecidableEq, Repr

inductive DigestStatus where
  | ready
  | generating
  | error
  deriving DecidableEq, Repr

structure NewsDigest where
  generatedAt : String
  topics : List TopicDigest
  status : DigestStatus
  error : Option String
  deriving DecidableEq, Repr

-- --- In-memory cache (newsAgent.ts lines 28-30), as explicit state ---

structure AgentState where
  cachedDigest : Option NewsDigest
  isGenerating : Bool
  deriving DecidableEq, Repr

/-- The state at process start: `cachedDigest = null`, `isGenerating = false`. -/
def initialState : AgentState :=
  { cachedDigest := none, isGenerating := false }

-- --- loadInterests (newsAgent.ts lines 39-49) ---

/-- JS `content.split('\n')` on the character list: splits at every newline
and keeps empty pieces. -/
def splitLinesAux : List Char → List (List Char)
  | [] => [[]]
  | c :: cs =>
      let rest := splitLinesAux cs
      if c = '\n' then [] :: rest
      else
        match rest with
        | [] => [[c]]
        | l :: ls => (c :: l) :: ls

/-- JS `content.split('\n')`. -/
def splitNewlines (content : String) : List String :=
  (splitLinesAux content.toList).map (fun cs => String.mk cs)

/-- The whitespace class stripped by JS `String.prototype.trim`. -/
def isJsWhitespace (c : Char) : Bool :=
  c = ' ' || c = '\t' || c = '\n' || c = '\r' || c = '\x0B' || c = '\x0C'

/-- JS `line.trim()`: drops leading and trailing whitespace. -/
def trimJs (s : String) : String :=
  String.mk
    (((s.toList.dropWhile isJsWhitespace).reverse.dropWhile isJsWhitespace).reverse)

/-- JS `line.startsWith('#')`. -/
def startsWithChar (s : String) (c : Char) : Bool :=
  match s.toList with
  | [] => false
  | c0 :: _ => c0 = c

/-- `loadInterests`: the configuration source is `none` when the file is
absent, `some content` otherwise.  Mirrors the split / trim / filter chain
of the source. -/
def loadInterests (config : Option String) : List String :=
  match config with
  | none => []
  | some content =>
      ((splitNewlines content).map (fun line => trimJs line)).filter
        (fun line => decide (line.length > 0) && !(startsWithChar line '#'))

-- --- searchNews (newsAgent.ts lines 56-89) ---

/-- One raw item of the Custom Search JSON response; every accessed field is
optional because the source defaults each one (`item.title || ''`,
`item.pagemap?.metatags?.[0]?.[...]`). -/
structure SearchItem where
  title : Option String
  link : Option String
  snippet : Option String
  displayLink : Option String
  publishedTime : Option String
  deriving DecidableEq, Repr

/-- Outcome of the single `fetch` in `searchNews`: a thrown transport error,
a non-ok HTTP response, or an ok response whose `items` field may be absent. -/
inductive FetchOutcome where
  | transportError
  | httpError (status : Nat) (body : String)
  | ok (items : Option (List SearchItem))
  deriving DecidableEq, Repr

/-- The mapping applied to each item (newsAgent.ts lines 78-84). -/
def itemToArticle (item : SearchItem) : ArticleResult :=
  { title := item.title.getD ""
  , link := item.link.getD ""
  , snippet := item.snippet.getD ""
  , source := item.displayLink.getD ""
  , date := item.publishedTime }

/-- `searchNews` as a function of the fetch outcome.  Both failure branches
and the missing/empty `items` branch return the empty list; no branch
throws. -/
def searchNews (outcome : FetchOutcome) : List ArticleResult :=
  match outcome with
  | .transportError => []
  | .httpError _ _ => []
  | .ok items =>
      match items with
      | none => []
      | some is => if is.length = 0 then [] else is.map itemToArticle

-- --- synthesizeWithLLM (newsAgent.ts lines 94-132) ---

/-- Fixed message returned when a topic has no articles
(newsAgent.ts line 100). -/
def noArticlesMessage (topic : String) : String :=
  "Aucun article récent trouvé pour \"" ++ topic ++
    "\" au cours des dernières 24 heures."

/-- Fixed sentence substituted when the model call fails
(newsAgent.ts line 130). -/
def llmErrorMessage (topic : String) : String :=
  "Erreur lors de la synthèse pour \"" ++ topic ++
    "\". Les articles sont listés ci-dessous."

/-- Outcome of the single `model.generateContent` call. -/
inductive LLMOutcome where
  | success (text : String)
  | failure
  deriving DecidableEq, Repr

/-- Result of `synthesizeWithLLM`, together with the number of model calls
it performed (the source calls `generateContent` exactly once unless it
returns early on the empty-articles branch). -/
structure SynthesisResult where
  summary : String
  llmCalls : Nat
  deriving DecidableEq, Repr

def synthesizeWithLLM (topic : String) (articles : List ArticleResult)
    (llm : LLMOutcome) : SynthesisResult :=
  if articles.length = 0 then
    { summary := noArticlesMessage topic, llmCalls := 0 }
  else
    match llm with
    | .success text => { summary := text, llmCalls := 1 }
    | .failure => { summary := llmErrorMessage topic, llmCalls := 1 }

-- --- generateDigest (newsAgent.ts lines 137-211) ---

/-- Per-topic slice of the outside world: the search fetch outcome and the
model outcome for that topic. -/
structure TopicEnv where
  search : FetchOutcome
  llm : LLMOutcome

/-- The outside world for one invocation of `generateDigest`: the
configuration file content, the timestamp, the per-topic oracles (indexed
by position in the interests list), and an optional unexpected exception
(with its message) thrown inside the orchestration `try` block. -/
structure RunEnv where
  config : Option String
  now : String
  topicEnv : Nat → TopicEnv
  exception : Option String

/-- Error message cached when no interests are configured
(newsAgent.ts line 160). -/
def noInterestsMessage : String :=
  "Aucun centre d\x27intérêt configuré. Ajoutez des thèmes dans config/interests.txt."

/-- The placeholder digest returned when a generation is already in progress
and no cache exists (newsAgent.ts lines 143-147). -/
def generatingPlaceholder (now : String) : NewsDigest :=
  { generatedAt := now, topics := [], status := .generating, error := none }

/-- The body of the per-interest loop (newsAgent.ts lines 168-187): search,
synthesize, build the `TopicDigest`.  Also reports the model-call count. -/
def processTopic (interest : String) (tenv : TopicEnv) : TopicDigest × Nat :=
  let articles := searchNews tenv.search
  let synth := synthesizeWithLLM interest articles tenv.llm
  ({ topic := interest
   , summary := synth.summary
   , articles := articles
   , articleCount := articles.length }, synth.llmCalls)

/-- The sequential loop over the interests, in list order; the i-th interest
consumes the i-th per-topic oracle. -/
def runTopics (interests : List String) (envOf : Nat → TopicEnv) :
    List (TopicDigest × Nat) :=
  interests.enum.map (fun p => processTopic p.2 (envOf p.1))

/-- `generateDigest` as a state transformer: returns the digest the promise
resolves with and the module state after the call completes (the `finally`
block has cleared `isGenerating`). -/
def generateDigest (env : RunEnv) (st : AgentState) : NewsDigest × AgentState :=
  if st.isGenerating then
    (st.cachedDigest.getD (generatingPlaceholder env.now), st)
  else
    match env.exception with
    | some msg =>
        let digest : NewsDigest :=
          { generatedAt := env.now, topics := [], status := .error
          , error := some msg }
        (digest, { cachedDigest := some digest, isGenerating := false })
    | none =>
        let interests := loadInterests env.config
        if interests.length = 0 then
          let digest : NewsDigest :=
            { generatedAt := env.now, topics := [], status := .error
            , error := some noInterestsMessage }
          (digest, { cachedDigest := some digest, isGenerating := false })
        else
          let topics := (runTopics interests env.topicEnv).map Prod.fst
          let digest : NewsDigest :=
            { generatedAt := env.now, topics := topics, status := .ready
            , error := none }
          (digest, { cachedDigest := some digest, isGenerating := false })

-- --- accessors (newsAgent.ts lines 216-225) ---

def getCachedDigest (st : AgentState) : Option NewsDigest :=
  st.cachedDigest

def isDigestGenerating (st : AgentState) : Bool :=
  st.isGenerating

-- --- HTTP layer (index.ts lines 836-878) ---

/-- The JSON body the `GET /api/news-digest` handler sends when no digest is
cached (index.ts lines 840-845). -/
structure EmptyDigestBody where
  generatedAt : Option String
  topics : List TopicDigest
  status : String
  message : String
  deriving DecidableEq, Repr

def emptyDigestBody : EmptyDigestBody :=
  { generatedAt := none
  , topics := []
  , status := "empty"
  , message := "Aucun rapport de veille disponible. Un administrateur doit déclencher la génération." }

/-- Response of the `GET /api/news-digest` handler. -/
inductive GetDigestResponse where
  | cached (d : NewsDigest)
  | empty (body : EmptyDigestBody)
  deriving DecidableEq, Repr

def getNewsDigestHandler (st : AgentState) : GetDigestResponse :=
  match getCachedDigest st with
  | none => .empty emptyDigestBody
  | some digest => .cached digest

def refreshConflictMessage : String :=
  "Un rapport est déjà en cours de génération. Veuillez patienter."

def missingKeysMessage : String :=
  "Clés API manquantes. Vérifiez google_search_api_key, google_search_cx et gemini_api_key dans les secrets."

def refreshStartedMessage : String :=
  "Génération du rapport de veille lancée..."

/-- Response of the `POST /api/news-digest/refresh` handler, each
constructor carrying the HTTP status the source sends with it. -/
inductive RefreshResponse where
  | conflict (httpStatus : Nat) (errMsg : String)
  | missingKeys (httpStatus : Nat) (errMsg : String)
  | started (message : String)
  deriving DecidableEq, Repr

/-- The `POST /api/news-digest/refresh` handler (index.ts lines 855-878):
`keysConfigured` is the truth of the three non-empty API-key checks; in the
started case the returned state is the module state once the fired-and-
forgotten `generateDigest` promise has settled. -/
def postRefreshHandler (keysConfigured : Bool) (env : RunEnv)
    (st : AgentState) : RefreshResponse × AgentState :=
  if isDigestGenerating st then
    (.conflict 409 refreshConflictMessage, st)
  else if !keysConfigured then
    (.missingKeys 500 missingKeysMessage, st)
  else
    (.started refreshStartedMessage, (generateDigest env st).2)

-- --- Sample environments for concrete evaluation ---

/-- A configuration text with a comment line and a blank line. -/
def sampleConfigText : String := "ai\n# comment\n\nsecurity"

/-- Per-topic oracle: every search errors out, every model call fails. -/
def bareTopicEnv : TopicEnv :=
  { search := .transportError, llm := .failure }

/-- Environment with an absent configuration file. -/
def envNoConfig : RunEnv :=
  { config := none
  , now := "2026-10-11T00:00:00.000Z"
  , topicEnv := fun _ => bareTopicEnv
  , exception := none }

/-- Environment with two configured interests whose searches both yield no
articles (`items` absent in an ok response). -/
def envTwoTopics : RunEnv :=
  { config := some sampleConfigText
  , now := "2026-10-11T01:00:00.000Z"
  , topicEnv := fun _ => { search := .ok none, llm := .failure }
  , exception := none }

/-- A concrete search result item. -/
def sampleItem : SearchItem :=
  { title := some "Breakthrough"
  , link := some "https://example.org/a"
  , snippet := some "A snippet."
  , displayLink := some "example.org"
  , publishedTime := none }

/-- Environment where both searches succeed with one article, the model
fails on the first topic and succeeds on the second. -/
def envMixed : RunEnv :=
  { config := some sampleConfigText
  , now := "2026-10-11T02:00:00.000Z"
  , topicEnv := fun i =>
      if i = 0 then { search := .ok (some [sampleItem]), llm := .failure }
      else { search := .ok (some [sampleItem]), llm := .success "Résumé du jour." }
  , exception := none }

/-- A state in which a generation is already in progress and nothing is
cached yet. -/
def busyState : AgentState :=
  { cachedDigest := none, isGenerating := true }

-- --- Helper lemmas ---

lemma runTopics_length (interests : List String) (envOf : Nat → TopicEnv) :
    (runTopics interests envOf).length = interests.length := by
  simp [runTopics]

lemma runTopics_get (interests : List String) (envOf : Nat → TopicEnv)
    (i : Nat) (hi : i < interests.length)
    (hr : i < (runTopics interests envOf).length) :
    (runTopics interests envOf).get ⟨i, hr⟩ =
      processTopic (interests.get ⟨i, hi⟩) (envOf i) := by
  simp [runTopics, List.get_eq_getElem, List.getElem_enum]

/-- `generateDigest` on a started run with no exception and a non-empty
interests list: the success branch. -/
lemma generateDigest_success (env : RunEnv) (st : AgentState)
    (h : st.isGenerating = false) (he : env.exception = none)
    (hn : (loadInterests env.config).length ≠ 0) :
    generateDigest env st =
      ({ generatedAt := env.now
       , topics := (runTopics (loadInterests env.config) env.topicEnv).map Prod.fst
       , status := .ready, error := none }
      , { cachedDigest := some
            { generatedAt := env.now
            , topics := (runTopics (loadInterests env.config) env.topicEnv).map Prod.fst
            , status := .ready, error := none }
        , isGenerating := false }) := by
  rw [generateDigest, h, he]
  simp [hn]

-- --- Claims ---

/-- Claim C1: at most one generation runs at a time.  A call to
`generateDigest` made while `isDigestGenerating` is true starts no second
pipeline: the process-wide cache and flag are unchanged, and the call
returns the cached digest when one exists, otherwise the placeholder with
status `generating` and an empty topic list. -/
theorem C1_single_flight (env : RunEnv) (st : AgentState)
    (h : isDigestGenerating st = true) :
    (generateDigest env st).2 = st ∧
    (∀ d, getCachedDigest st = some d → (generateDigest env st).1 = d) ∧
    (getCachedDigest st = none →
      (generateDigest env st).1 = generatingPlaceholder env.now ∧
      (generateDigest env st).1.status = .generating ∧
      (generateDigest env st).1.topics = []) := by
  have h' : st.isGenerating = true := h
  refine ⟨?_, ?_, ?_⟩
  · rw [generateDigest, h']
    rfl
  · intro d hd
    have hd' : st.cachedDigest = some d := hd
    rw [generateDigest, h', hd']
    rfl
  · intro hd
    have hd' : st.cachedDigest = none := hd
    rw [generateDigest, h', hd']
    exact ⟨rfl, rfl, rfl⟩

theorem C1_single_flight_witness :
    (generateDigest envTwoTopics busyState).2 = busyState ∧
    (generateDigest envTwoTopics busyState).1 =
      generatingPlaceholder envTwoTopics.now :=
  ⟨(C1_single_flight envTwoTopics busyState rfl).1,
   ((C1_single_flight envTwoTopics busyState rfl).2.2 rfl).1⟩

/-- Claim C2: every run that actually starts ends with the in-progress
flag false and the cache holding the run's final result, whose status is
`ready` with no error message on success and `error` with a message
otherwise; in particular, with no exception and a non-empty interests list
the result has status `ready`. -/
theorem C2_run_completion (env : RunEnv) (st : AgentState)
    (h : isDigestGenerating st = false) :
    isDigestGenerating (generateDigest env st).2 = false ∧
    getCachedDigest (generateDigest env st).2 = some (generateDigest env st).1 ∧
    ((generateDigest env st).1.status = .ready ∧
        (generateDigest env st).1.error = none ∨
      (generateDigest env st).1.status = .error ∧
        ((generateDigest env st).1.error).isSome = true) ∧
    (env.exception = none → (loadInterests env.config).length ≠ 0 →
      (generateDigest env st).1.status = .ready) := by
  have h' : st.isGenerating = false := h
  rw [generateDigest, h']
  cases he : env.exception with
  | some msg => exact ⟨rfl, rfl, Or.inr ⟨rfl, rfl⟩, fun hc _ => by simp at hc⟩
  | none =>
      by_cases hn : (loadInterests env.config).length = 0
      · simp only [hn, if_pos rfl]
        exact ⟨rfl, rfl, Or.inr ⟨rfl, rfl⟩, fun _ hk => absurd rfl hk⟩
      · simp only [if_neg hn]
        exact ⟨rfl, rfl, Or.inl ⟨rfl, rfl⟩, fun _ _ => rfl⟩

theorem C2_run_completion_witness :
    isDigestGenerating (generateDigest envTwoTopics initialState).2 = false ∧
    getCachedDigest (generateDigest envTwoTopics initialState).2 =
      some (generateDigest envTwoTopics initialState).1 ∧
    (generateDigest envTwoTopics initialState).1.status = .ready :=
  ⟨(C2_run_completion envTwoTopics initialState rfl).1,
   (C2_run_completion envTwoTopics initialState rfl).2.1,
   (C2_run_completion envTwoTopics initialState rfl).2.2.2 rfl (by decide)⟩

/-- Claim C3: a started run over an empty interests list yields the digest
with status `error`, empty topics and the explanatory message, and caches
exactly that digest. -/
theorem C3_empty_config (env : RunEnv) (st : AgentState)
    (h : isDigestGenerating st = false) (he : env.exception = none)
    (hc : loadInterests env.config = []) :
    (generateDigest env st).1 =
      { generatedAt := env.now, topics := [], status := .error
      , error := some noInterestsMessage } ∧
    getCachedDigest (generateDigest env st).2 =
      some (generateDigest env st).1 := by
  have h' : st.isGenerating = false := h
  rw [generateDigest, h', he]
  simp [hc, getCachedDigest]

theorem C3_empty_config_witness :
    (generateDigest envNoConfig initialState).1 =
      { generatedAt := envNoConfig.now, topics := [], status := .error
      , error := some noInterestsMessage } ∧
    getCachedDigest (generateDigest envNoConfig initialState).2 =
      some (generateDigest envNoConfig initialState).1 :=
  C3_empty_config envNoConfig initialState rfl rfl rfl

lemma generateDigest_topics_length (env : RunEnv) (st : AgentState)
    (h : st.isGenerating = false) (he : env.exception = none)
    (hn : (loadInterests env.config).length ≠ 0) :
    (generateDigest env st).1.topics.length =
      (loadInterests env.config).length := by
  rw [generateDigest_success env st h he hn]
  simp [runTopics_length]

lemma generateDigest_topics_get (env : RunEnv) (st : AgentState)
    (h : st.isGenerating = false) (he : env.exception = none)
    (i : Nat) (hi : i < (loadInterests env.config).length)
    (hl : i < (generateDigest env st).1.topics.length) :
    (generateDigest env st).1.topics.get ⟨i, hl⟩ =
      (processTopic ((loadInterests env.config).get ⟨i, hi⟩)
        (env.topicEnv i)).1 := by
  have hn : (loadInterests env.config).length ≠ 0 := by omega
  have heq : (generateDigest env st).1.topics =
      (runTopics (loadInterests env.config) env.topicEnv).map Prod.fst := by
    rw [generateDigest_success env st h he hn]
  revert hl
  rw [heq]
  intro hl
  simp [List.get_eq_getElem, runTopics, List.getElem_enum]

/-- Claim C4: for a topic whose search yields zero articles, the resulting
`TopicDigest` carries the fixed "no articles found" message, a zero article
count, an empty article list, and no model call is made for that topic. -/
theorem C4_zero_articles (env : RunEnv) (st : AgentState)
    (h : isDigestGenerating st = false) (he : env.exception = none)
    (i : Nat) (hi : i < (loadInterests env.config).length)
    (hs : searchNews (env.topicEnv i).search = []) :
    ∃ (hl : i < (generateDigest env st).1.topics.length)
      (hr : i < (runTopics (loadInterests env.config) env.topicEnv).length),
      ((generateDigest env st).1.topics.get ⟨i, hl⟩).summary =
        noArticlesMessage ((loadInterests env.config).get ⟨i, hi⟩) ∧
      ((generateDigest env st).1.topics.get ⟨i, hl⟩).articleCount = 0 ∧
      ((generateDigest env st).1.topics.get ⟨i, hl⟩).articles = [] ∧
      ((runTopics (loadInterests env.config) env.topicEnv).get ⟨i, hr⟩).2
        = 0 := by
  have h' : st.isGenerating = false := h
  have hn : (loadInterests env.config).length ≠ 0 := by omega
  have hl : i < (generateDigest env st).1.topics.length := by
    rw [generateDigest_topics_length env st h' he hn]; exact hi
  have hr : i < (runTopics (loadInterests env.config) env.topicEnv).length := by
    rw [runTopics_length]; exact hi
  refine ⟨hl, hr, ?_, ?_, ?_, ?_⟩
  · rw [generateDigest_topics_get env st h' he i hi hl]
    simp [processTopic, hs, synthesizeWithLLM]
  · rw [generateDigest_topics_get env st h' he i hi hl]
    simp [processTopic, hs]
  · rw [generateDigest_topics_get env st h' he i hi hl]
    simp [processTopic, hs]
  · rw [runTopics_get (loadInterests env.config) env.topicEnv i hi hr]
    simp [processTopic, hs, synthesizeWithLLM]

theorem C4_zero_articles_witness :
    ∃ (hl : 0 < (generateDigest envTwoTopics initialState).1.topics.length)
      (hr : 0 < (runTopics (loadInterests envTwoTopics.config)
        envTwoTopics.topicEnv).length),
      ((generateDigest envTwoTopics initialState).1.topics.get
        ⟨0, hl⟩).summary = noArticlesMessage "ai" ∧
      ((generateDigest envTwoTopics initialState).1.topics.get
        ⟨0, hl⟩).articleCount = 0 ∧
      ((generateDigest envTwoTopics initialState).1.topics.get
        ⟨0, hl⟩).articles = [] ∧
      ((runTopics (loadInterests envTwoTopics.config)
        envTwoTopics.topicEnv).get ⟨0, hr⟩).2 = 0 := by
  obtain ⟨hl, hr, h1, h2, h3, h4⟩ :=
    C4_zero_articles envTwoTopics initialState rfl rfl 0 (by decide) rfl
  exact ⟨hl, hr, h1.trans (by decide), h2, h3, h4⟩

/-- Claim C5: a started run with a non-empty interests list produces one
`TopicDigest` per interest, whose topic fields equal the interests list in
the configured order. -/
theorem C5_topic_order (env : RunEnv) (st : AgentState)
    (h : isDigestGenerating st = false) (he : env.exception = none)
    (hn : (loadInterests env.config).length ≠ 0) :
    (generateDigest env st).1.topics.map TopicDigest.topic =
      loadInterests env.config ∧
    (generateDigest env st).1.topics.length =
      (loadInterests env.config).length := by
  have h' : st.isGenerating = false := h
  refine ⟨?_, generateDigest_topics_length env st h' he hn⟩
  rw [generateDigest_success env st h' he hn]
  show ((runTopics (loadInterests env.config) env.topicEnv).map
      Prod.fst).map TopicDigest.topic = loadInterests env.config
  rw [List.map_map, runTopics, List.map_map]
  have : (TopicDigest.topic ∘ Prod.fst) ∘
      (fun p : Nat × String => processTopic p.2 (env.topicEnv p.1)) =
      Prod.snd := by
    funext p
    rfl
  rw [this, List.enum_map_snd]

theorem C5_topic_order_witness :
    (generateDigest envTwoTopics initialState).1.topics.map
      TopicDigest.topic = loadInterests envTwoTopics.config ∧
    (generateDigest envTwoTopics initialState).1.topics.length =
      (loadInterests envTwoTopics.config).length :=
  C5_topic_order envTwoTopics initialState rfl rfl (by decide)

/-- Claim C6: per-topic failures never abort a run.  A transport error or a
non-success HTTP response makes `searchNews` return the empty list, and
within a started run a model failure on one topic yields that topic's fixed
error sentence while any topic with a successful model call keeps its own
summary text. -/
theorem C6_per_topic_failures (env : RunEnv) (st : AgentState)
    (h : isDigestGenerating st = false) (he : env.exception = none) :
    searchNews .transportError = [] ∧
    (∀ s b, searchNews (.httpError s b) = []) ∧
    (∀ i, ∀ hi : i < (loadInterests env.config).length,
      ∃ hl : i < (generateDigest env st).1.topics.length,
        ((env.topicEnv i).llm = .failure →
          searchNews (env.topicEnv i).search ≠ [] →
          ((generateDigest env st).1.topics.get ⟨i, hl⟩).summary =
            llmErrorMessage ((loadInterests env.config).get ⟨i, hi⟩)) ∧
        (∀ text, (env.topicEnv i).llm = .success text →
          searchNews (env.topicEnv i).search ≠ [] →
          ((generateDigest env st).1.topics.get ⟨i, hl⟩).summary =
            text)) := by
  have h' : st.isGenerating = false := h
  refine ⟨rfl, fun s b => rfl, fun i hi => ?_⟩
  have hn : (loadInterests env.config).length ≠ 0 := by omega
  have hl : i < (generateDigest env st).1.topics.length := by
    rw [generateDigest_topics_length env st h' he hn]; exact hi
  refine ⟨hl, ?_, ?_⟩
  · intro hf hne
    rw [generateDigest_topics_get env st h' he i hi hl]
    simp [processTopic, synthesizeWithLLM, hf, List.length_eq_zero, hne]
  · intro text hsucc hne
    rw [generateDigest_topics_get env st h' he i hi hl]
    simp [processTopic, synthesizeWithLLM, hsucc, List.length_eq_zero, hne]

theorem C6_per_topic_failures_witness :
    searchNews .transportError = [] ∧
    (∃ hl : 0 < (generateDigest envMixed initialState).1.topics.length,
      ((generateDigest envMixed initialState).1.topics.get ⟨0, hl⟩).summary =
        llmErrorMessage "ai") ∧
    (∃ hl : 1 < (generateDigest envMixed initialState).1.topics.length,
      ((generateDigest envMixed initialState).1.topics.get ⟨1, hl⟩).summary =
        "Résumé du jour.") := by
  refine ⟨(C6_per_topic_failures envMixed initialState rfl rfl).1, ?_, ?_⟩
  · obtain ⟨hl, hfail, _⟩ :=
      (C6_per_topic_failures envMixed initialState rfl rfl).2.2 0 (by decide)
    exact ⟨hl, (hfail rfl (by decide)).trans (by decide)⟩
  · obtain ⟨hl, _, hsucc⟩ :=
      (C6_per_topic_failures envMixed initialState rfl rfl).2.2 1 (by decide)
    exact ⟨hl, hsucc "Résumé du jour." rfl (by decide)⟩

-- --- Spec-side model of loadInterests (for the C7 refinement) ---

/-- Spec-side line filter, following the spec's words: strip blank lines
and comment lines with a leading hash, keep the rest (trimmed) in order. -/
def keepInterestLine (line : String) : Option String :=
  let t := trimJs line
  if t.length = 0 then none
  else if startsWithChar t '#' then none
  else some t

/-- Spec-side model of `loadInterests`: the empty list when the source is
absent, otherwise the newline-delimited lines with blanks and comments
stripped, in order. -/
def loadInterests_fromSpec (config : Option String) : List String :=
  match config with
  | none => []
  | some content => (splitNewlines content).filterMap keepInterestLine

/-- Claim C7: `loadInterests` returns the empty list for an absent source,
and on any source content it returns, in order, exactly the
lines that are non-blank after trimming and do not start with a hash — the
spec-side model `loadInterests_fromSpec`. -/
theorem C7_loadInterests :
    loadInterests none = [] ∧
    ∀ config, loadInterests config = loadInterests_fromSpec config := by
  refine ⟨rfl, fun config => ?_⟩
  cases config with
  | none => rfl
  | some c =>
      simp only [loadInterests, loadInterests_fromSpec]
      induction splitNewlines c with
      | nil => rfl
      | cons hd tl ih =>
          simp only [List.map_cons, List.filter_cons, List.filterMap_cons,
            keepInterestLine]
          by_cases h0 : (trimJs hd).length = 0
          · simp [h0, ih]
          · by_cases hh : startsWithChar (trimJs hd) '#'
            · simp [h0, hh, ih]
            · simp [h0, hh, ih, Nat.pos_of_ne_zero]

-- --- C8: the HTTP layer ---

/-- Counterexample to claim C8 as stated: with no generation in progress
but the API keys not configured, the refresh handler does not start the
pipeline and does not respond with the started message; it responds with
HTTP 500 and leaves the state untouched. -/
theorem C8_counterexample :
    isDigestGenerating initialState = false ∧
    (postRefreshHandler false envTwoTopics initialState).1 =
      RefreshResponse.missingKeys 500 missingKeysMessage ∧
    (postRefreshHandler false envTwoTopics initialState).1 ≠
      RefreshResponse.started refreshStartedMessage ∧
    (postRefreshHandler false envTwoTopics initialState).2 =
      initialState := by
  refine ⟨rfl, rfl, ?_, rfl⟩
  decide

/-- Claim C8, amended: the GET handler returns the cached digest when one
exists and otherwise the placeholder body with status "empty", null
generatedAt and no topics; the refresh handler responds 409 without
touching the state while a generation is in progress, starts the pipeline
and responds with the started message when idle and the API keys are
configured, and responds 500 without starting a pipeline when idle but a
key is missing. -/
theorem C8_http_layer (st : AgentState) (env : RunEnv) (keys : Bool) :
    (∀ d, getCachedDigest st = some d →
      getNewsDigestHandler st = .cached d) ∧
    (getCachedDigest st = none →
      getNewsDigestHandler st = .empty emptyDigestBody ∧
      emptyDigestBody.status = "empty" ∧
      emptyDigestBody.generatedAt = none ∧
      emptyDigestBody.topics = []) ∧
    (isDigestGenerating st = true →
      postRefreshHandler keys env st =
        (.conflict 409 refreshConflictMessage, st)) ∧
    (isDigestGenerating st = false → keys = true →
      postRefreshHandler keys env st =
        (.started refreshStartedMessage, (generateDigest env st).2)) ∧
    (isDigestGenerating st = false → keys = false →
      postRefreshHandler keys env st =
        (.missingKeys 500 missingKeysMessage, st)) := by
  refine ⟨?_, ?_, ?_, ?_, ?_⟩
  · intro d hd
    have hd' : st.cachedDigest = some d := hd
    simp [getNewsDigestHandler, getCachedDigest, hd']
  · intro hd
    have hd' : st.cachedDigest = none := hd
    exact ⟨by simp [getNewsDigestHandler, getCachedDigest, hd'], rfl, rfl, rfl⟩
  · intro hg
    simp [postRefreshHandler, hg]
  · intro hg hk
    simp [postRefreshHandler, hg, hk]
  · intro hg hk
    simp [postRefreshHandler, hg, hk]

theorem C8_http_layer_witness :
    getNewsDigestHandler initialState = .empty emptyDigestBody ∧
    postRefreshHandler true envTwoTopics busyState =
      (.conflict 409 refreshConflictMessage, busyState) ∧
    postRefreshHandler true envTwoTopics initialState =
      (.started refreshStartedMessage,
        (generateDigest envTwoTopics initialState).2) ∧
    postRefreshHandler false envTwoTopics initialState =
      (.missingKeys 500 missingKeysMessage, initialState) :=
  ⟨((C8_http_layer initialState envTwoTopics true).2.1 rfl).1,
   (C8_http_layer busyState envTwoTopics true).2.2.1 rfl,
   (C8_http_layer initialState envTwoTopics true).2.2.2.1 rfl rfl,
   (C8_http_layer initialState envTwoTopics false).2.2.2.2 rfl rfl⟩

-- --- C9: the cache never holds a generating digest ---

/-- A digest whose status is final (never `generating`). -/
def digestStatusFinal (d : NewsDigest) : Prop :=
  d.status = DigestStatus.ready ∨ d.status = DigestStatus.error

/-- The cache invariant: every cached digest has a final status, so
`getCachedDigest` yields none or a digest with status ready or error. -/
def cacheStatusOK (st : AgentState) : Prop :=
  ∀ d, getCachedDigest st = some d → digestStatusFinal d

/-- Claim C9: the cache never holds a digest with status `generating`: the
invariant holds initially and is preserved by every `generateDigest` call,
so `getCachedDigest` only ever returns none or a ready/error digest. -/
theorem C9_cache_never_generating :
    cacheStatusOK initialState ∧
    ∀ env st, cacheStatusOK st → cacheStatusOK (generateDigest env st).2 := by
  constructor
  · intro d hd
    simp [getCachedDigest, initialState] at hd
  · intro env st hOK d hd
    by_cases hg : st.isGenerating
    · rw [generateDigest, hg] at hd
      exact hOK d hd
    · have hg' : st.isGenerating = false := by simpa using hg
      rw [generateDigest, hg'] at hd
      cases he : env.exception with
      | some msg =>
          rw [he] at hd
          cases hd with
          | refl => exact Or.inr rfl
      | none =>
          rw [he] at hd
          by_cases hn : (loadInterests env.config).length = 0
          · simp only [hn, if_pos rfl] at hd
            cases hd with
            | refl => exact Or.inr rfl
          · simp only [if_neg hn] at hd
            cases hd with
            | refl => exact Or.inl rfl

theorem C9_cache_never_generating_witness :
    cacheStatusOK (generateDigest envTwoTopics initialState).2 :=
  C9_cache_never_generating.2 envTwoTopics initialState
    C9_cache_never_generating.1

-- --- C10: articleCount equals the article list length ---

/-- Every topic of the digest counts its own articles. -/
def topicsCountOK (d : NewsDigest) : Prop :=
  ∀ t ∈ d.topics, t.articleCount = t.articles.length

/-- Claim C10: in every digest `generateDigest` produces — both the value
it returns and the value it caches — every `TopicDigest` has
`articleCount` equal to the length of its `articles` list (granted the
incoming cache already satisfied this, as it does at process start). -/
theorem C10_articleCount :
    (∀ d, getCachedDigest initialState = some d → topicsCountOK d) ∧
    ∀ env st, (∀ d, getCachedDigest st = some d → topicsCountOK d) →
      topicsCountOK (generateDigest env st).1 ∧
      ∀ d, getCachedDigest (generateDigest env st).2 = some d →
        topicsCountOK d := by
  constructor
  · intro d hd
    simp [getCachedDigest, initialState] at hd
  · intro env st hOK
    have hrun : ∀ p ∈ runTopics (loadInterests env.config) env.topicEnv,
        p.1.articleCount = p.1.articles.length := by
      intro p hp
      rw [runTopics] at hp
      obtain ⟨q, _, rfl⟩ := List.mem_map.1 hp
      rfl
    by_cases hg : st.isGenerating
    · rw [generateDigest, hg]
      constructor
      · cases hc : st.cachedDigest with
        | none =>
            intro t ht
            simp [hc, generatingPlaceholder] at ht
        | some d =>
            simp only [hc, Option.getD_some]
            exact hOK d hc
      · exact fun d hd => hOK d hd
    · have hg' : st.isGenerating = false := by simpa using hg
      rw [generateDigest, hg']
      cases he : env.exception with
      | some msg =>
          exact ⟨fun t ht => by simp at ht,
            fun d hd => by
              cases hd with
              | refl => exact fun t ht => by simp at ht⟩
      | none =>
          by_cases hn : (loadInterests env.config).length = 0
          · simp only [hn, if_pos rfl]
            exact ⟨fun t ht => by simp at ht,
              fun d hd => by
                cases hd with
                | refl => exact fun t ht => by simp at ht⟩
          · simp only [if_neg hn]
            refine ⟨?_, ?_⟩
            · intro t ht
              obtain ⟨p, hp, rfl⟩ := List.mem_map.1 ht
              exact hrun p hp
            · intro d hd
              cases hd with
              | refl =>
                  intro t ht
                  obtain ⟨p, hp, rfl⟩ := List.mem_map.1 ht
                  exact hrun p hp

theorem C10_articleCount_witness :
    topicsCountOK (generateDigest envMixed initialState).1 :=
  (C10_articleCount.2 envMixed initialState C10_articleCount.1).1
